import Mathlib

/-!
# TrickOrTreaterDashboard — verification of the live-session coordinator,
# event decoder and resilient sync client

Shallow embedding of the Python sources:
* `app.py` — file-backed live-mode state (`load_live_mode_from_file`,
  `save_live_mode_to_file`, `get_elapsed_seconds`, the `/set_live` handler);
* `local_application/serial_interface.py` — `RadioProtocolHandler.handle_line`
  and its button/heart dispatch;
* `local_application/remote_api_client.py` — `DashboardAPIClient._make_request`
  retry/backoff loop;
* `local_application/local_serial_monitor.py` — `sync_pending_data`.

Python `None`/truthiness is modelled explicitly: an optional string is
`Option String` and is *truthy* exactly when it is `some s` with `s ≠ ""`.
A stored `start_time` is `null`, a parseable ISO-8601 string (abstracted to
its parsed clock value, a `Nat`), or a non-parseable string.
-/

namespace Dashboard

/-- Truthiness of a Python optional string: `None` and `""` are falsy. -/
def truthyS : Option String → Bool
  | none => false
  | some s => s ≠ ""

/-- Python `x or y` on optional strings (`body.get('owner') or
request.headers.get('X-Client-Id')` in `set_live`). -/
def pyOr (x y : Option String) : Option String :=
  if truthyS x then x else y

/-- The `start_time` field as stored in `data/live_mode.json`: JSON `null`,
a string `datetime.fromisoformat` accepts (abstracted to the parsed clock
value), or a string it rejects. -/
inductive StoredTime where
  | null : StoredTime
  | iso (t : Nat) : StoredTime
  | bad (s : String) : StoredTime
deriving DecidableEq, Repr

/-- Python truthiness of the stored `start_time` value: `None` and the empty
string are falsy; a parseable ISO string is never empty. -/
def truthyT : StoredTime → Bool
  | .null => false
  | .iso _ => true
  | .bad s => s ≠ ""

/-- The in-memory live-mode state dict: keys `enabled`, `start_time`, `owner`. -/
structure LiveState where
  enabled : Bool
  start_time : StoredTime
  owner : Option String
deriving DecidableEq, Repr

/-- Contents of the canonical `live_mode.json` location: missing file,
unparseable JSON, or a record with the three keys. -/
inductive FileContent where
  | absent : FileContent
  | corrupt : FileContent
  | record (enabled : Bool) (start_time : StoredTime) (owner : Option String) : FileContent
deriving DecidableEq, Repr

/-- The fail-safe state `load_live_mode_from_file` falls back to. -/
def defaultState : LiveState := ⟨false, .null, none⟩

/-- `save_live_mode_to_file`: writes a temp file then atomically replaces the
canonical one; on any error it re-raises (`Except.error`) and, because the
replace never ran, the canonical file is untouched. `ok` models whether the
underlying I/O succeeds. -/
def save_live_mode_to_file (st : LiveState) (ok : Bool) : Except String FileContent :=
  if ok then .ok (.record st.enabled st.start_time st.owner) else .error "save failed"

/-- `load_live_mode_from_file`: returns the state dict and the (possibly
rewritten) file. A missing file is initialised to the default record; a
truthy but invalid `start_time` is reset to `None`; an enabled record whose
`start_time` is then falsy is repaired to `now` and re-saved. Any exception
(corrupt JSON, or a failing re-save) is caught and the default disabled
state returned with the file untouched. -/
def load_live_mode_from_file (file : FileContent) (now : Nat) (saveOk : Bool) :
    LiveState × FileContent :=
  match file with
  | .corrupt => (defaultState, file)
  | .absent =>
      match save_live_mode_to_file defaultState saveOk with
      | .ok f => (defaultState, f)
      | .error _ => (defaultState, file)
  | .record e st ow =>
      let st1 := if truthyT st then
          (match st with
           | .iso t => StoredTime.iso t
           | _ => StoredTime.null)
        else st
      if e && !(truthyT st1) then
        match save_live_mode_to_file ⟨e, .iso now, ow⟩ saveOk with
        | .ok f => (⟨e, .iso now, ow⟩, f)
        | .error _ => (defaultState, file)
      else (⟨e, st1, ow⟩, file)

/-- `get_elapsed_seconds`: reloads the file; `0` unless enabled with a truthy
`start_time`, else `int((now - start).total_seconds())` (non-parseable
`start_time` is caught and gives `0`). Returns the value together with the
file left behind by the embedded load. -/
def get_elapsed_seconds (file : FileContent) (now : Nat) (saveOk : Bool) :
    Int × FileContent :=
  let (st, f1) := load_live_mode_from_file file now saveOk
  if st.enabled && truthyT st.start_time then
    match st.start_time with
    | .iso t => ((now : Int) - (t : Int), f1)
    | _ => (0, f1)
  else (0, f1)

/-- The ownership guard of `set_live`:
`current_owner and owner and current_owner != owner`. -/
def ownershipConflict (currentOwner owner : Option String) : Bool :=
  truthyS currentOwner && truthyS owner && currentOwner ≠ owner

/-- JSON response of the `/set_live` handler together with the HTTP status. -/
structure SetLiveResponse where
  live : Bool
  elapsed_seconds : Int
  error : Option String
  status : Nat
deriving DecidableEq, Repr

/-- The `/set_live` handler body: resolve the requesting owner from the JSON
body or the `X-Client-Id` header, load the authoritative state, then either
enable, disable (guarded by `ownershipConflict`), or no-op; a transition is
persisted via `save_live_mode_to_file`, whose failure yields a 500 response
reporting the unchanged current state. Returns the response and the final
file contents. -/
def set_live (file : FileContent) (now : Nat) (desired : Bool)
    (bodyOwner headerOwner : Option String) (saveOk : Bool) :
    SetLiveResponse × FileContent :=
  let owner := pyOr bodyOwner headerOwner
  let (current, f1) := load_live_mode_from_file file now saveOk
  if desired && !current.enabled then
    match save_live_mode_to_file ⟨true, .iso now, owner⟩ saveOk with
    | .error _ =>
        let (el, f2) := get_elapsed_seconds f1 now saveOk
        (⟨current.enabled, el, some "Failed to save state", 500⟩, f2)
    | .ok f2 =>
        let (verify, f3) := load_live_mode_from_file f2 now saveOk
        let (el, f4) := get_elapsed_seconds f3 now saveOk
        (⟨verify.enabled, el, none, 200⟩, f4)
  else if !desired && current.enabled then
    if ownershipConflict current.owner owner then
      let (el, f2) := get_elapsed_seconds f1 now saveOk
      (⟨current.enabled, el, some "Cannot disable - owned by different client", 200⟩, f2)
    else
      match save_live_mode_to_file ⟨false, .null, none⟩ saveOk with
      | .error _ =>
          let (el, f2) := get_elapsed_seconds f1 now saveOk
          (⟨current.enabled, el, some "Failed to save state", 500⟩, f2)
      | .ok f2 =>
          let (verify, f3) := load_live_mode_from_file f2 now saveOk
          let (el, f4) := get_elapsed_seconds f3 now saveOk
          (⟨verify.enabled, el, none, 200⟩, f4)
  else
    let (el, f2) := get_elapsed_seconds f1 now saveOk
    (⟨current.enabled, el, none, 200⟩, f2)

/-! ## Event Decoder — `serial_interface.py`, `RadioProtocolHandler` -/

/-- The first maximal run of digit characters in a line
(`re.search(r'\d+', data)`); `none` when the line holds no digit. -/
def firstDigitRun : List Char → Option (List Char)
  | [] => none
  | c :: rest =>
      if c.isDigit then some (c :: rest.takeWhile Char.isDigit)
      else firstDigitRun rest

/-- Decimal value of a digit run (`int(...)` on the matched group). -/
def digitsToNat (ds : List Char) : Nat :=
  ds.foldl (fun n c => 10 * n + (c.toNat - 48)) 0

/-- The first integer substring of a device line, if any. -/
def firstNumber (s : String) : Option Nat :=
  (firstDigitRun s.data).map digitsToNat

/-- Python substring containment (`"Button" in data`). -/
def containsSub : List Char → List Char → Bool
  | needle, [] => needle.isEmpty
  | needle, c :: t => needle.isPrefixOf (c :: t) || containsSub needle t

/-- Observable outcome of `handle_line` on one device line. `attrError` is
the uncaught `AttributeError` from `re.search(...).group()` when the line has
no digit; `buttonIndexError` the uncaught `IndexError` from a negative index
reaching past the front of the callback list; `heartPrinted` records that
`__process_heart` only prints `Radio Heart: id` (it never invokes the stored
`heart_callback`). -/
inductive LineEffect where
  | attrError : LineEffect
  | buttonCalled (c : Nat) : LineEffect
  | buttonSkipped : LineEffect
  | buttonIndexError : LineEffect
  | buttonLowIndex : LineEffect
  | heartPrinted (id : Int) : LineEffect
  | unexpectedPrinted : LineEffect
deriving DecidableEq, Repr

/-- Python list indexing `cbs[i]` with negative-index wraparound;
`none` is an `IndexError`. Callbacks are abstracted to identifiers, a list
entry `none` being Python `None`. -/
def pyIndex (cbs : List (Option Nat)) (i : Int) : Option (Option Nat) :=
  if 0 ≤ i then cbs.get? i.toNat
  else if 0 ≤ (cbs.length : Int) + i then cbs.get? ((cbs.length : Int) + i).toNat
  else none

/-- `__process_button`: guarded by `len(self.event_callback_list) >
button_index`; inside the guard the callback at `button_index` runs when it
is not `None`; outside it, `"Low list index"` is printed. -/
def processButton (cbs : List (Option Nat)) (i : Int) : LineEffect :=
  if (cbs.length : Int) > i then
    match pyIndex cbs i with
    | some (some c) => .buttonCalled c
    | some none => .buttonSkipped
    | none => .buttonIndexError
  else .buttonLowIndex

set_option linter.unusedVariables false in
/-- `handle_line`: `numeric_data = int(re.search(r'\d+', data).group()) - 1`
(raising when no digit exists), then dispatch on whether `"Button"` or
`"Heart"` occurs in the line. The registered heartbeat callback `heartCb` is
carried for fidelity but `__process_heart` never reads it. -/
def handle_line (cbs : List (Option Nat)) (heartCb : Option Nat) (data : String) :
    LineEffect :=
  match firstNumber data with
  | none => .attrError
  | some n =>
      let i : Int := (n : Int) - 1
      if containsSub "Button".data data.data then processButton cbs i
      else if containsSub "Heart".data data.data then .heartPrinted i
      else .unexpectedPrinted

/-! ## Resilient Sync Client — `remote_api_client.py`, `_make_request` -/

/-- What the server does on one attempt: a clean JSON 200, an HTTP status
(with, for 429, an optional `Retry-After` header that may or may not parse
as an integer), a timeout, or a connection error. -/
inductive Resp where
  | ok : Resp
  | status (code : Nat) (retryAfter : Option (Option Int)) : Resp
  | timeout : Resp
  | connError : Resp

/-- `backoff_factor * (2 ** (attempt - 1))`. Delays are exact rationals:
Python only ever multiplies the base by a power of two, which is exact. -/
def backoffDelay (b : ℚ) (attempt : Nat) : ℚ := b * 2 ^ (attempt - 1)

/-- Observable trace of one `_make_request` call: whether a parsed body was
returned (`none` is Python `None`), how many HTTP attempts were issued, and
the `time.sleep` durations in order. -/
structure RequestRun where
  result : Option Unit
  attempts : Nat
  delays : List ℚ
deriving DecidableEq, Repr

/-- The `while attempt <= max_retries` loop of `_make_request`, as recursion
on the remaining attempt budget (`remaining = max_retries - attempt + 1`),
`k` being the current 1-based attempt number. A 429 always sleeps
(`max` of the computed backoff and a parseable `Retry-After`) and retries; a
5xx sleeps and retries only when budget remains, else `raise_for_status`
throws and the `HTTPError` handler returns `None`; other `raise_for_status`
failures return `None` at once; timeouts and connection errors return `None`
on the last attempt, else sleep and retry. -/
def mrLoop (server : Nat → Resp) (b : ℚ) : Nat → Nat → RequestRun
  | 0, _ => ⟨none, 0, []⟩
  | r + 1, k =>
      match server k with
      | .ok => ⟨some (), 1, []⟩
      | .timeout =>
          if r = 0 then ⟨none, 1, []⟩
          else
            let rest := mrLoop server b r (k + 1)
            ⟨rest.result, rest.attempts + 1, backoffDelay b k :: rest.delays⟩
      | .connError =>
          if r = 0 then ⟨none, 1, []⟩
          else
            let rest := mrLoop server b r (k + 1)
            ⟨rest.result, rest.attempts + 1, backoffDelay b k :: rest.delays⟩
      | .status c ra =>
          if c = 429 then
            let d := match ra with
              | some (some n) => max (backoffDelay b k) (n : ℚ)
              | _ => backoffDelay b k
            let rest := mrLoop server b r (k + 1)
            ⟨rest.result, rest.attempts + 1, d :: rest.delays⟩
          else if 500 ≤ c && c < 600 then
            if r = 0 then ⟨none, 1, []⟩
            else
              let rest := mrLoop server b r (k + 1)
              ⟨rest.result, rest.attempts + 1, backoffDelay b k :: rest.delays⟩
          else if 400 ≤ c then ⟨none, 1, []⟩
          else ⟨some (), 1, []⟩

/-- `_make_request` with a given retry budget (`retries`, default 3) and
backoff factor (default 0.3), run against a deterministic server. -/
def make_request (server : Nat → Resp) (maxRetries : Nat) (b : ℚ) : RequestRun :=
  mrLoop server b maxRetries 1

/-! ## Pending-queue reconciliation — `local_serial_monitor.py`,
`sync_pending_data` -/

/-- One locally buffered entry of the backup file: payload fields plus the
`pending_upload` flag (an absent key reads as falsy, i.e. `false`). -/
structure PendingEntry where
  timestamp : Nat
  count : Nat
  year : Nat
  pending_upload : Bool
deriving DecidableEq, Repr

/-- The in-place loop `for entry in all_data: if entry.get('pending_upload'):
entry['pending_upload'] = False`, applied to one entry. -/
def clearPending (e : PendingEntry) : PendingEntry :=
  if e.pending_upload then { e with pending_upload := false } else e

/-- `sync_pending_data`: no-op without local backup or backup file; otherwise
read all entries, filter the flagged ones, and if any exist submit them as
one batch; on a truthy upload result clear every flagged entry and rewrite
the file, on a falsy result (upload returned `None`) leave the file alone.
Returns the resulting file and whether a batch upload was submitted. -/
def sync_pending_data (localBackup : Bool) (file : Option (List PendingEntry))
    (uploadOk : Bool) : Option (List PendingEntry) × Bool :=
  if !localBackup then (file, false)
  else match file with
  | none => (none, false)
  | some allData =>
      let pending := allData.filter (fun e => e.pending_upload)
      if pending.isEmpty then (some allData, false)
      else if uploadOk then (some (allData.map clearPending), true)
      else (some allData, true)

end Dashboard

namespace Dashboard

example : make_request (fun _ => .status 503 none) 3 (3/10)
    = ⟨none, 3, [3/10, 3/5]⟩ := by norm_num [make_request, mrLoop, backoffDelay]
example : make_request (fun _ => .timeout) 3 (3/10)
    = ⟨none, 3, [3/10, 3/5]⟩ := by norm_num [make_request, mrLoop, backoffDelay]
example : make_request (fun _ => .status 429 (some (some 2))) 3 (3/10)
    = ⟨none, 3, [2, 2, 2]⟩ := by norm_num [make_request, mrLoop, backoffDelay]
example : make_request (fun _ => .ok) 3 (3/10) = ⟨some (), 1, []⟩ := by
  norm_num [make_request, mrLoop]
example : make_request (fun _ => .status 404 none) 3 (3/10) = ⟨none, 1, []⟩ := by
  norm_num [make_request, mrLoop]

example : sync_pending_data true (some [⟨1, 1, 2023, true⟩, ⟨2, 1, 2023, false⟩]) true
    = (some [⟨1, 1, 2023, false⟩, ⟨2, 1, 2023, false⟩], true) := by decide
example : sync_pending_data true (some [⟨1, 1, 2023, true⟩, ⟨2, 1, 2023, false⟩]) false
    = (some [⟨1, 1, 2023, true⟩, ⟨2, 1, 2023, false⟩], true) := by decide

example : handle_line [some 0, none, some 2] none "Button: 1" = .buttonCalled 0 := by decide
example : handle_line [some 0, none, some 2] none "Button 3" = .buttonCalled 2 := by decide
example : handle_line [some 0, none, some 2] (some 7) "Heart: 5" = .heartPrinted 4 := by decide
example : handle_line [some 0] none "hello" = .attrError := by decide
example : handle_line [some 0, none, some 2] none "Button: 0" = .buttonCalled 2 := by decide
example : handle_line [] none "Button: 0" = .buttonIndexError := by decide
example : handle_line [some 0] none "noise 7 noise" = .unexpectedPrinted := by decide

example : set_live (.record true (.iso 10) (some "A")) 25 false (some "B") none true
    = (⟨true, 15, some "Cannot disable - owned by different client", 200⟩,
       .record true (.iso 10) (some "A")) := by decide

example : set_live (.record true (.iso 10) (some "A")) 25 false (some "A") none true
    = (⟨false, 0, none, 200⟩, .record false .null none) := by decide

example : load_live_mode_from_file (.record true .null (some "A")) 7 true
    = (⟨true, .iso 7, some "A"⟩, .record true (.iso 7) (some "A")) := by decide

/-! ## Supporting lemmas -/

/-- Loading is stable: reloading the file a load left behind changes nothing
(read-your-writes for the self-healing path included). -/
lemma load_stable (file : FileContent) (now : Nat) (saveOk : Bool) :
    load_live_mode_from_file (load_live_mode_from_file file now saveOk).2 now saveOk
      = load_live_mode_from_file file now saveOk := by
  cases file with
  | corrupt => rfl
  | absent => cases saveOk <;> rfl
  | record e st ow =>
      cases st with
      | null => cases e <;> cases saveOk <;> rfl
      | iso t => cases e <;> rfl
      | bad s =>
          by_cases hs : s = "" <;> cases e <;> cases saveOk <;>
            simp [load_live_mode_from_file, save_live_mode_to_file, truthyT,
              defaultState, hs]

/-- `get_elapsed_seconds` only ever writes through its embedded load. -/
lemma get_elapsed_seconds_snd (file : FileContent) (now : Nat) (saveOk : Bool) :
    (get_elapsed_seconds file now saveOk).2
      = (load_live_mode_from_file file now saveOk).2 := by
  unfold get_elapsed_seconds
  rcases load_live_mode_from_file file now saveOk with ⟨s, f⟩
  dsimp only
  split
  · split <;> rfl
  · rfl

/-! ## Claim theorems -/

/-- C1: with the session enabled and owned by a set owner `A`, a disable
request from a different set owner `B` leaves the persisted record untouched
and yields a 200 response carrying the ownership-conflict error, the still-
enabled state and the current elapsed seconds; a disable request from `A`
itself succeeds, clearing `owner` and `start_time`. -/
theorem claim_C1 (a b : String) (t now : Nat)
    (ha : a ≠ "") (hb : b ≠ "") (hab : a ≠ b) :
    set_live (.record true (.iso t) (some a)) now false (some b) none true
      = (⟨true, (now : Int) - (t : Int),
          some "Cannot disable - owned by different client", 200⟩,
         .record true (.iso t) (some a))
    ∧ set_live (.record true (.iso t) (some a)) now false (some a) none true
      = (⟨false, 0, none, 200⟩, .record false .null none) := by
  constructor <;>
    simp [set_live, load_live_mode_from_file, get_elapsed_seconds,
      save_live_mode_to_file, ownershipConflict, pyOr, truthyS, truthyT,
      defaultState, ha, hb, hab]

/-- Witness for C1 at owners `"A"`/`"B"`, start 10, now 25. -/
theorem claim_C1_witness :
    set_live (.record true (.iso 10) (some "A")) 25 false (some "B") none true
      = (⟨true, 15, some "Cannot disable - owned by different client", 200⟩,
         .record true (.iso 10) (some "A"))
    ∧ set_live (.record true (.iso 10) (some "A")) 25 false (some "A") none true
      = (⟨false, 0, none, 200⟩, .record false .null none) := by
  have h := claim_C1 "A" "B" 10 25 (by decide) (by decide) (by decide)
  refine ⟨?_, h.2⟩
  rw [h.1]
  norm_num

/-- C2: loading a record that is enabled but whose `start_time` is missing or
not ISO-8601 parseable returns a state whose `start_time` is `now`, and that
repaired record is re-persisted before `load` returns. -/
theorem claim_C2 (st : StoredTime) (ow : Option String) (now : Nat)
    (h : ∀ t, st ≠ .iso t) :
    load_live_mode_from_file (.record true st ow) now true
      = (⟨true, .iso now, ow⟩, .record true (.iso now) ow) := by
  cases st with
  | null => rfl
  | iso t => exact absurd rfl (h t)
  | bad s =>
      by_cases hs : s = "" <;>
        simp [load_live_mode_from_file, save_live_mode_to_file, truthyT, hs]

/-- Witness for C2: `{enabled: true, start_time: null}` is healed to `now = 7`. -/
theorem claim_C2_witness :
    load_live_mode_from_file (.record true .null (some "A")) 7 true
      = (⟨true, .iso 7, some "A"⟩, .record true (.iso 7) (some "A")) :=
  claim_C2 .null (some "A") 7 (fun t h => by cases h)

/-- C3: when the desired enabled value equals the current one, `set_live` is
a no-op: it answers with the current state and no error, and the file is
exactly what the initial load left behind (the transition logic writes
nothing); in particular re-enabling an already-enabled session preserves
`start_time` and `owner` verbatim. -/
theorem claim_C3 (file : FileContent) (now : Nat)
    (bodyOwner headerOwner : Option String) (saveOk desired : Bool)
    (h : desired = (load_live_mode_from_file file now saveOk).1.enabled) :
    set_live file now desired bodyOwner headerOwner saveOk
      = (⟨(load_live_mode_from_file file now saveOk).1.enabled,
          (get_elapsed_seconds (load_live_mode_from_file file now saveOk).2 now saveOk).1,
          none, 200⟩,
         (load_live_mode_from_file file now saveOk).2)
    ∧ (∀ (t : Nat) (ow : Option String),
        set_live (.record true (.iso t) ow) now true bodyOwner headerOwner saveOk
          = (⟨true, (now : Int) - (t : Int), none, 200⟩, .record true (.iso t) ow)) := by
  constructor
  · rcases hL : load_live_mode_from_file file now saveOk with ⟨c, f1⟩
    rcases hE : get_elapsed_seconds f1 now saveOk with ⟨el, f2⟩
    have hf2 : f2 = f1 := by
      have h1 := get_elapsed_seconds_snd f1 now saveOk
      have h2 := load_stable file now saveOk
      rw [hL] at h2
      rw [hE, h2] at h1
      exact h1
    subst hf2
    rw [hL] at h
    cases hc : c.enabled <;>
      simp_all [set_live, hL, hE]
  · intro t ow
    simp [set_live, load_live_mode_from_file, get_elapsed_seconds, truthyT]

/-- Witness for C3: enabling while already enabled (start 10, now 25)
changes nothing and does not reset the clock. -/
theorem claim_C3_witness :
    set_live (.record true (.iso 10) (some "A")) 25 true (some "B") none true
      = (⟨true,
          (get_elapsed_seconds
            (load_live_mode_from_file (.record true (.iso 10) (some "A")) 25 true).2
            25 true).1,
          none, 200⟩,
         (load_live_mode_from_file (.record true (.iso 10) (some "A")) 25 true).2)
    ∧ set_live (.record true (.iso 10) (some "A")) 25 true (some "B") none true
      = (⟨true, 15, none, 200⟩, .record true (.iso 10) (some "A")) := by
  have h := claim_C3 (.record true (.iso 10) (some "A")) 25 (some "B") none true true
    (by decide)
  refine ⟨h.1, ?_⟩
  rw [h.2 10 (some "A")]
  norm_num

/-- C7: a failing persist during a transition is not swallowed: `save`
re-raises (`Except.error`), the handler answers HTTP 500 with an error field
and the unchanged current state, and the canonical file is exactly as before
the call — for both the enable and the owner-matching disable transition. -/
theorem claim_C7 (now t : Nat) (a : String) (bo hd : Option String) (ha : a ≠ "") :
    (∀ st : LiveState, save_live_mode_to_file st false = .error "save failed")
    ∧ set_live (.record false .null none) now true bo hd false
      = (⟨false, 0, some "Failed to save state", 500⟩, .record false .null none)
    ∧ set_live (.record true (.iso t) (some a)) now false (some a) none false
      = (⟨true, (now : Int) - (t : Int), some "Failed to save state", 500⟩,
         .record true (.iso t) (some a)) := by
  refine ⟨fun st => rfl, ?_, ?_⟩
  · simp [set_live, load_live_mode_from_file, get_elapsed_seconds,
      save_live_mode_to_file, truthyT, defaultState]
  · simp [set_live, load_live_mode_from_file, get_elapsed_seconds,
      save_live_mode_to_file, ownershipConflict, pyOr, truthyS, truthyT,
      defaultState, ha]

/-- Witness for C7 at start 10, now 25, owner `"A"`. -/
theorem claim_C7_witness :
    (save_live_mode_to_file ⟨true, .iso 25, some "A"⟩ false = .error "save failed")
    ∧ set_live (.record false .null none) 25 true none none false
      = (⟨false, 0, some "Failed to save state", 500⟩, .record false .null none)
    ∧ set_live (.record true (.iso 10) (some "A")) 25 false (some "A") none false
      = (⟨true, 15, some "Failed to save state", 500⟩,
         .record true (.iso 10) (some "A")) := by
  have h := claim_C7 25 10 "A" none none (by decide)
  refine ⟨h.1 _, h.2.1, ?_⟩
  rw [h.2.2]
  norm_num

/-- C9 (implicit): an empty-string requesting owner is falsy, so
`body.owner = ""` with no `X-Client-Id` header resolves to no owner at all:
the ownership-conflict check is skipped and the disable succeeds even
against a recorded owner; likewise a session enabled with owner `""` (and no
header) records `owner = None` — unclaimed — and anyone may disable it. -/
theorem claim_C9 (a b : String) (t now now2 : Nat) :
    set_live (.record true (.iso t) (some a)) now false (some "") none true
      = (⟨false, 0, none, 200⟩, .record false .null none)
    ∧ pyOr (some "") none = none
    ∧ set_live (.record false .null none) now true (some "") none true
      = (⟨true, 0, none, 200⟩, .record true (.iso now) none)
    ∧ set_live (.record true (.iso now) none) now2 false (some b) none true
      = (⟨false, 0, none, 200⟩, .record false .null none) := by
  refine ⟨?_, rfl, ?_, ?_⟩ <;>
    simp [set_live, load_live_mode_from_file, get_elapsed_seconds,
      save_live_mode_to_file, ownershipConflict, pyOr, truthyS, truthyT,
      defaultState]

/-- C5: a device line with no digit makes `handle_line` raise
(`re.search(r'\d+', data)` returns `None` and `.group()` raises
`AttributeError`), before any dispatch or logging — including for a
`Button`-shaped line and the empty line — contradicting the
"logged as unexpected and discarded, never crashes" claim. -/
theorem claim_C5 :
    handle_line [some 0, none, some 2] (some 7) "hello world" = .attrError
    ∧ handle_line [] none "Button: N" = .attrError
    ∧ handle_line [some 0] none "" = .attrError := by
  decide

/-- C6: on the line `"Heart: 5"` the decoder only prints `Radio Heart: 4`
and invokes no button callback — but it also never invokes the registered
heartbeat callback: `handle_line`'s behaviour is independent of the stored
`heart_callback`, contradicting "invoke the heartbeat callback if
registered". -/
theorem claim_C6 :
    handle_line [some 0, none, some 2] (some 7) "Heart: 5" = .heartPrinted 4
    ∧ handle_line [some 0, none, some 2] none "Heart: 5" = .heartPrinted 4
    ∧ ∀ (hb hb2 : Option Nat) (cbs : List (Option Nat)) (data : String),
        handle_line cbs hb data = handle_line cbs hb2 data := by
  exact ⟨by decide, by decide, fun _ _ _ _ => rfl⟩

/-- C10 (implicit): `"Button: 0"` decodes to index `-1`; for any non-empty
callback list the bounds check `len(list) > -1` passes, so Python negative
indexing dispatches the *last* callback instead of rejecting the line; the
`Low list index` warning is printed exactly for indices `≥ len(list)`. -/
theorem claim_C10 (cbs : List (Option Nat)) (h : cbs ≠ []) :
    (∀ c : Nat, cbs.getLast? = some (some c) →
        handle_line cbs none "Button: 0" = .buttonCalled c)
    ∧ processButton cbs (-1) ≠ .buttonLowIndex
    ∧ (∀ i : Int, (processButton cbs i = .buttonLowIndex ↔ (cbs.length : Int) ≤ i)) := by
  have hlen : 0 < cbs.length := List.length_pos.mpr h
  have hneg : processButton cbs (-1) = (match pyIndex cbs (-1) with
      | some (some c) => LineEffect.buttonCalled c
      | some none => LineEffect.buttonSkipped
      | none => LineEffect.buttonIndexError) := by
    unfold processButton
    have : ((cbs.length : Int) > -1) := by omega
    simp [this]
  have hidx : pyIndex cbs (-1) = cbs.getLast? := by
    unfold pyIndex
    have h1 : ¬ ((0 : Int) ≤ -1) := by norm_num
    have h2 : (0 : Int) ≤ (cbs.length : Int) + -1 := by omega
    have h3 : ((cbs.length : Int) + -1).toNat = cbs.length - 1 := by omega
    rw [if_neg h1, if_pos h2, h3, List.getLast?_eq_getElem?, List.get?_eq_getElem?]
  refine ⟨?_, ?_, ?_⟩
  · intro c hc
    have e1 : firstNumber "Button: 0" = some 0 := by decide
    have e2 : containsSub "Button".data "Button: 0".data = true := by decide
    unfold handle_line
    rw [e1]
    simp only [e2, if_true]
    norm_num
    rw [hneg, hidx, hc]
  · rw [hneg, hidx]
    rcases hc : cbs.getLast? with _ | ⟨_ | c⟩ <;> simp
  · intro i
    unfold processButton
    by_cases hi : ((cbs.length : Int) > i)
    · rcases hp : pyIndex cbs i with _ | ⟨_ | c⟩ <;>
        simp [hi, hp, not_le.mpr hi]
    · simp [hi, not_lt.mp hi]

/-- Witness for C10 with the deployed callback shape
`[count, None, undo]`: `"Button: 0"` runs the undo callback. -/
theorem claim_C10_witness :
    handle_line [some 0, none, some 2] none "Button: 0" = .buttonCalled 2
    ∧ processButton [some 0, none, some 2] (-1) ≠ .buttonLowIndex
    ∧ (processButton [some 0, none, some 2] 3 = .buttonLowIndex
        ↔ (([some 0, none, some 2] : List (Option Nat)).length : Int) ≤ 3) := by
  have h := claim_C10 [some 0, none, some 2] (by decide)
  exact ⟨h.1 2 (by decide), h.2.1, h.2.2 3⟩

/-! ## Retry-loop lemmas -/

/-- Against a server that always answers 503, the loop makes every allowed
attempt, sleeps `b·2^(attempt-1)` between consecutive attempts (none after
the last), and fails. -/
lemma mrLoop_503 (b : ℚ) :
    ∀ r k : Nat, 1 ≤ r → 1 ≤ k →
      mrLoop (fun _ => .status 503 none) b r k
        = ⟨none, r, (List.range (r - 1)).map (fun i => b * 2 ^ (k - 1 + i))⟩ := by
  intro r
  induction r with
  | zero => intro k h _; omega
  | succ r ih =>
      intro k _ hk
      cases r with
      | zero => rfl
      | succ r' =>
          have hstep : mrLoop (fun _ => .status 503 none) b (r' + 1 + 1) k
              = ⟨(mrLoop (fun _ => .status 503 none) b (r' + 1) (k + 1)).result,
                 (mrLoop (fun _ => .status 503 none) b (r' + 1) (k + 1)).attempts + 1,
                 backoffDelay b k
                   :: (mrLoop (fun _ => .status 503 none) b (r' + 1) (k + 1)).delays⟩ := rfl
          rw [hstep, ih (k + 1) (by omega) (by omega)]
          have he : ∀ i : Nat, k + 1 - 1 + i = k - 1 + (i + 1) := by omega
          simp [List.range_succ_eq_map, Function.comp, backoffDelay, he,
            Nat.add_sub_cancel]
          exact fun a _ => Or.inl (by omega)

/-- Same trace for a server that always times out (and, by the identical
branch, always resets the connection). -/
lemma mrLoop_timeout (b : ℚ) :
    ∀ r k : Nat, 1 ≤ r → 1 ≤ k →
      mrLoop (fun _ => .timeout) b r k
        = ⟨none, r, (List.range (r - 1)).map (fun i => b * 2 ^ (k - 1 + i))⟩ := by
  intro r
  induction r with
  | zero => intro k h _; omega
  | succ r ih =>
      intro k _ hk
      cases r with
      | zero => rfl
      | succ r' =>
          have hstep : mrLoop (fun _ => .timeout) b (r' + 1 + 1) k
              = ⟨(mrLoop (fun _ => .timeout) b (r' + 1) (k + 1)).result,
                 (mrLoop (fun _ => .timeout) b (r' + 1) (k + 1)).attempts + 1,
                 backoffDelay b k
                   :: (mrLoop (fun _ => .timeout) b (r' + 1) (k + 1)).delays⟩ := rfl
          rw [hstep, ih (k + 1) (by omega) (by omega)]
          have he : ∀ i : Nat, k + 1 - 1 + i = k - 1 + (i + 1) := by omega
          simp [List.range_succ_eq_map, Function.comp, backoffDelay, he,
            Nat.add_sub_cancel]
          exact fun a _ => Or.inl (by omega)

/-- Against a server that always answers 429 with a parseable
`Retry-After: ra`, the loop sleeps `max (b·2^(attempt-1)) ra` after every
attempt (the last included) and fails. -/
lemma mrLoop_429 (b : ℚ) (ra : Int) :
    ∀ r k : Nat, 1 ≤ k →
      mrLoop (fun _ => .status 429 (some (some ra))) b r k
        = ⟨none, r, (List.range r).map (fun i => max (b * 2 ^ (k - 1 + i)) (ra : ℚ))⟩ := by
  intro r
  induction r with
  | zero => intro k hk; rfl
  | succ r ih =>
      intro k hk
      have hstep : mrLoop (fun _ => .status 429 (some (some ra))) b (r + 1) k
          = ⟨(mrLoop (fun _ => .status 429 (some (some ra))) b r (k + 1)).result,
             (mrLoop (fun _ => .status 429 (some (some ra))) b r (k + 1)).attempts + 1,
             max (backoffDelay b k) (ra : ℚ)
               :: (mrLoop (fun _ => .status 429 (some (some ra))) b r (k + 1)).delays⟩ := rfl
      rw [hstep, ih (k + 1) (by omega)]
      have he : ∀ i : Nat, k + 1 - 1 + i = k - 1 + (i + 1) := by omega
      simp [List.range_succ_eq_map, Function.comp, backoffDelay, he,
        Nat.add_sub_cancel]
      exact fun a _ => by rw [show k - 1 + (a + 1) = k + a from by omega]

/-- C4 (amended): against an always-retryable server (permanent 503 or
permanent timeout) `_make_request` stops after exactly the configured retry
budget `R` and returns `None`; the inter-attempt delays are exactly
`b·2^(attempt−1)` and hence non-decreasing; a permanent 429 with a numeric
`Retry-After: ra` sleeps `max (b·2^(attempt−1)) ra` each time. (The claim's
"capped at a configured maximum delay" clause is dropped: `_make_request`
has no cap, see the counterexample.) -/
theorem claim_C4 (R : Nat) (b : ℚ) (ra : Int) (hR : 1 ≤ R) (hb : 0 ≤ b) :
    make_request (fun _ => .status 503 none) R b
      = ⟨none, R, (List.range (R - 1)).map (fun i => b * 2 ^ i)⟩
    ∧ make_request (fun _ => .timeout) R b
      = ⟨none, R, (List.range (R - 1)).map (fun i => b * 2 ^ i)⟩
    ∧ (make_request (fun _ => .status 503 none) R b).delays.Pairwise (· ≤ ·)
    ∧ make_request (fun _ => .status 429 (some (some ra))) R b
      = ⟨none, R, (List.range R).map (fun i => max (b * 2 ^ i) (ra : ℚ))⟩ := by
  have h503 := mrLoop_503 b R 1 hR (by omega)
  have htmo := mrLoop_timeout b R 1 hR (by omega)
  have h429 := mrLoop_429 b ra R 1 (by omega)
  simp only [Nat.sub_self, Nat.zero_add] at h503 htmo h429
  refine ⟨h503, htmo, ?_, h429⟩
  rw [make_request, h503]
  dsimp only
  refine (List.pairwise_lt_range _).map _ (fun i j hij => ?_)
  exact mul_le_mul_of_nonneg_left (pow_le_pow_right₀ one_le_two hij.le) hb

/-- Witness for C4 at the default configuration (3 retries, base 0.3) and a
429 hint of 2 seconds. -/
theorem claim_C4_witness :
    make_request (fun _ => .status 503 none) 3 (3/10) = ⟨none, 3, [3/10, 3/5]⟩
    ∧ make_request (fun _ => .timeout) 3 (3/10) = ⟨none, 3, [3/10, 3/5]⟩
    ∧ (make_request (fun _ => .status 503 none) 3 (3/10)).delays.Pairwise (· ≤ ·)
    ∧ make_request (fun _ => .status 429 (some (some 2))) 3 (3/10)
      = ⟨none, 3, [2, 2, 2]⟩ := by
  have h := claim_C4 3 (3/10) 2 (by norm_num) (by norm_num)
  refine ⟨?_, ?_, h.2.2.1, ?_⟩
  · rw [h.1]; norm_num [List.range_succ]
  · rw [h.2.1]; norm_num [List.range_succ]
  · rw [h.2.2.2]; norm_num [List.range_succ]

/-- Counterexample to C4 as stated: the delay sequence of `_make_request` is
not bounded by any cap — no "configured maximum delay" exists in the client;
with the default base 0.3 the delays grow past every candidate bound as the
retry budget grows. -/
theorem claim_C4_counterexample :
    ¬ ∃ cap : ℚ, ∀ R : Nat,
        ∀ d ∈ (make_request (fun _ => .status 503 none) R (3/10)).delays,
          d ≤ cap := by
  rintro ⟨cap, hcap⟩
  obtain ⟨n, hn⟩ := pow_unbounded_of_one_lt cap (by norm_num : (1 : ℚ) < 2)
  have hrun := mrLoop_503 (3/10) (n + 4) 1 (by omega) (by omega)
  have hmem : (3/10 : ℚ) * 2 ^ (n + 2)
      ∈ (make_request (fun _ => .status 503 none) (n + 4) (3/10)).delays := by
    rw [make_request, hrun]
    dsimp only
    exact List.mem_map.mpr ⟨n + 2, by rw [List.mem_range]; omega, by norm_num⟩
  have hle := hcap (n + 4) _ hmem
  have h2 : (2 : ℚ) ^ n ≤ (3/10) * 2 ^ (n + 2) := by
    have he : (3/10 : ℚ) * 2 ^ (n + 2) = (6/5) * 2 ^ n := by ring
    nlinarith [pow_pos (by norm_num : (0 : ℚ) < 2) n]
  linarith

/-- C8: reconciliation clears the `pending_upload` flag exactly when the
batch upload returns success: on success every flagged entry is cleared
(payload untouched) and the file rewritten; on failure the file — every flag
included — is left exactly as it was, ready for the next startup. -/
theorem claim_C8 (allData : List PendingEntry)
    (h : allData.filter (fun e => e.pending_upload) ≠ []) :
    sync_pending_data true (some allData) true
      = (some (allData.map clearPending), true)
    ∧ sync_pending_data true (some allData) false = (some allData, true)
    ∧ (∀ e ∈ allData.map clearPending, e.pending_upload = false)
    ∧ ∀ i : Nat,
        ((allData.map clearPending).get? i).map
            (fun e => (e.timestamp, e.count, e.year))
          = (allData.get? i).map (fun e => (e.timestamp, e.count, e.year)) := by
  have hne : (allData.filter (fun e => e.pending_upload)).isEmpty = false := by
    rcases hf : allData.filter (fun e => e.pending_upload) with _ | ⟨x, xs⟩
    · exact absurd hf h
    · simp [hf]
  refine ⟨?_, ?_, ?_, ?_⟩
  · simp [sync_pending_data, hne]
  · simp [sync_pending_data, hne]
  · intro e he
    rcases List.mem_map.mp he with ⟨e', _, rfl⟩
    by_cases hp : e'.pending_upload <;> simp [clearPending, hp]
  · intro i
    rw [List.get?_eq_getElem?, List.get?_eq_getElem?, List.getElem?_map]
    rcases allData[i]? with _ | e
    · rfl
    · by_cases hp : e.pending_upload <;> simp [clearPending, hp]

/-- Witness for C8 on a two-entry backup file with one flagged entry. -/
theorem claim_C8_witness :
    sync_pending_data true (some [⟨1, 1, 2023, true⟩, ⟨2, 1, 2023, false⟩]) true
      = (some [⟨1, 1, 2023, false⟩, ⟨2, 1, 2023, false⟩], true)
    ∧ sync_pending_data true (some [⟨1, 1, 2023, true⟩, ⟨2, 1, 2023, false⟩]) false
      = (some [⟨1, 1, 2023, true⟩, ⟨2, 1, 2023, false⟩], true) := by
  have h := claim_C8 [⟨1, 1, 2023, true⟩, ⟨2, 1, 2023, false⟩] (by decide)
  refine ⟨?_, h.2.1⟩
  rw [h.1]
  decide

end Dashboard
